import Mathlib

/-!
Verification of the Hildebrand Glow home-automation integration.

This file gives a shallow embedding, in Lean 4, of the logical core of the
repository `HandyHat/ha-hildebrandglow-dcc`:

* the MQTT smart-meter payload decoder
  (`custom_components/hildebrandglow/mqttpayload.py`),
* the Glowmarkt API client (`custom_components/hildebrandglow_dcc/glow.py`),
* the polling scheduler and the auth/retry control flow of the sensors
  (`custom_components/hildebrandglow_dcc/sensor.py`).

Python dictionaries are modelled as association lists, `d[k]` as a fallible
lookup in the `Except` monad (a missing key is a `KeyError`), `int(s, 16)`
as a fallible hex parse (a malformed string is a `ValueError`), and an Enum
constructor applied to an unknown code as a `ValueError`.  Python object
construction is modelled by a function from the input dictionary to an
`Except`-wrapped record; where a constructor assigns the same attribute
twice, the attribute dictionary is kept as an explicit assignment list so
that the final attribute values are exactly the last assignments, as in
Python.  Class-level attributes are modelled as an explicit class-state
record threaded through the instance operations.
-/

/-! ## Python-level primitives -/

/-- Errors a Python expression in the decoder can raise. -/
inductive PyErr where
  | keyError
  | valueError
deriving DecidableEq

/-- Value of a single hexadecimal digit, as accepted by `int(_, 16)`. -/
def hexDigitVal (c : Char) : Option Nat :=
  if '0' ≤ c ∧ c ≤ '9' then some (c.toNat - '0'.toNat)
  else if 'a' ≤ c ∧ c ≤ 'f' then some (c.toNat - 'a'.toNat + 10)
  else if 'A' ≤ c ∧ c ≤ 'F' then some (c.toNat - 'A'.toNat + 10)
  else none

/-- Accumulating base-16 evaluation of a digit list. -/
def hexAccum : List Char → Nat → Option Nat
  | [], acc => some acc
  | c :: cs, acc =>
    match hexDigitVal c with
    | some d => hexAccum cs (16 * acc + d)
    | none => none

/-- Model of Python `int(s, 16)`: `none` when the string is empty or holds a
non-hex character (Python raises `ValueError` there). -/
def hexToNat (s : String) : Option Nat :=
  match s.data with
  | [] => none
  | cs => hexAccum cs 0

/-- Python `d[k]` on a string-keyed dictionary: `KeyError` when absent. -/
def pyIndex {α : Type} (d : List (String × α)) (k : String) : Except PyErr α :=
  match List.lookup k d with
  | some v => Except.ok v
  | none => Except.error PyErr.keyError

/-- Python `int(d[k], 16) if k in d else None`. -/
def optHex (d : List (String × String)) (k : String) : Except PyErr (Option Nat) :=
  match List.lookup k d with
  | none => Except.ok none
  | some s =>
    match hexToNat s with
    | some n => Except.ok (some n)
    | none => Except.error PyErr.valueError

/-- Python `EnumClass(s)`: `ValueError` when `s` is not a member code. -/
def pyEnumOf {β : Type} (fromCode : String → Option β) (s : String) : Except PyErr β :=
  match fromCode s with
  | some v => Except.ok v
  | none => Except.error PyErr.valueError

/-- Reading of the final value of an attribute from the ordered list of
assignments a Python `__init__` performed: the last assignment wins, and a
name that was never assigned is absent (reading it raises
`AttributeError`). -/
def getattrOpt {α : Type} (assigns : List (String × α)) (name : String) : Option α :=
  List.lookup name assigns.reverse

/-! ## The MQTT payload decoder (`mqttpayload.py`)

The meter payload is a JSON object mapping the cluster id `"0702"` to a map
from sub-block codes (`"00"`, `"02"`, `"03"`, `"04"`, `"0C"`) to maps from
two-hex-character attribute codes to hex strings. -/

/-- A `"0702"` sub-block: attribute code to hex-string value. -/
abbrev AttrMap := List (String × String)

/-- The `"0702"` cluster: sub-block code to attribute map. -/
abbrev ClusterMap := List (String × AttrMap)

/-- One meter section of the payload (the value under `elecMtr`/`gasMtr`). -/
abbrev MeterDict := List (String × ClusterMap)

/-- The decoded top-level MQTT payload dictionary. -/
abbrev TopPayload := List (String × MeterDict)

/-- Meter supply states (`Meter.ReadingInformationSet.SupplyStatus`). -/
inductive Meter.ReadingInformationSet.SupplyStatus where
  | OFF
  | ARMED
  | ON
deriving DecidableEq

/-- The enum constructor: code `"00"`→OFF, `"01"`→ARMED, `"02"`→ON. -/
def Meter.ReadingInformationSet.SupplyStatus.fromCode (s : String) :
    Option Meter.ReadingInformationSet.SupplyStatus :=
  if s = "00" then some .OFF
  else if s = "01" then some .ARMED
  else if s = "02" then some .ON
  else none

/-- Attributes providing remote access to meter readings.  The integer
fields are `Option` because the Python code guards each key; the supply
status is not optional because the Python constructor always builds one,
defaulting the code to `"00"`. -/
structure Meter.ReadingInformationSet where
  current_summation_delivered : Option Nat
  current_summation_received : Option Nat
  current_max_demand_delivered : Option Nat
  reading_snapshot_time : Option Nat
  supply_status : Meter.ReadingInformationSet.SupplyStatus
deriving DecidableEq

/-- `Meter.ReadingInformationSet.__init__`. -/
def Meter.ReadingInformationSet.init (payload : MeterDict) :
    Except PyErr Meter.ReadingInformationSet := do
  let c ← pyIndex payload "0702"
  let ris := (List.lookup "00" c).getD []
  let csd ← optHex ris "00"
  let csr ← optHex ris "01"
  let cmd ← optHex ris "02"
  let rst ← optHex ris "07"
  let ss ← pyEnumOf Meter.ReadingInformationSet.SupplyStatus.fromCode
    ((List.lookup "14" ris).getD "00")
  pure ⟨csd, csr, cmd, rst, ss⟩

/-- Information about the meter's error conditions. -/
structure Meter.MeterStatus where
  status : Option String
deriving DecidableEq

/-- `Meter.MeterStatus.__init__`. -/
def Meter.MeterStatus.init (payload : MeterDict) : Except PyErr Meter.MeterStatus := do
  let c ← pyIndex payload "0702"
  let ms := (List.lookup "02" c).getD []
  pure ⟨List.lookup "00" ms⟩

/-- Units of measurement (`Meter.Formatting.UnitofMeasure`). -/
inductive Meter.Formatting.UnitofMeasure where
  | KWH
  | M3
deriving DecidableEq

/-- The enum constructor: code `"00"`→KWH, `"01"`→M3. -/
def Meter.Formatting.UnitofMeasure.fromCode (s : String) :
    Option Meter.Formatting.UnitofMeasure :=
  if s = "00" then some .KWH
  else if s = "01" then some .M3
  else none

/-- Metering device types (`Meter.Formatting.MeteringDeviceType`). -/
inductive Meter.Formatting.MeteringDeviceType where
  | ELECTRIC
  | GAS
deriving DecidableEq

/-- The enum constructor: code `"00"`→ELECTRIC, `"80"`→GAS. -/
def Meter.Formatting.MeteringDeviceType.fromCode (s : String) :
    Option Meter.Formatting.MeteringDeviceType :=
  if s = "00" then some .ELECTRIC
  else if s = "80" then some .GAS
  else none

/-- Information about the format used for metering data. -/
structure Meter.Formatting where
  unit_of_measure : Meter.Formatting.UnitofMeasure
  multiplier : Option Nat
  divisor : Option Nat
  summation_formatting : Option String
  demand_formatting : Option String
  metering_device_type : Option Meter.Formatting.MeteringDeviceType
  siteID : Option String
  meter_serial_number : Option String
  alternative_unit_of_measure : Option Meter.Formatting.UnitofMeasure
deriving DecidableEq

/-- `Meter.Formatting.__init__`. -/
def Meter.Formatting.init (payload : MeterDict) : Except PyErr Meter.Formatting := do
  let c ← pyIndex payload "0702"
  let f := (List.lookup "03" c).getD []
  let uom ← pyEnumOf Meter.Formatting.UnitofMeasure.fromCode
    ((List.lookup "00" f).getD "00")
  let mult ← optHex f "01"
  let dvsr ← optHex f "02"
  let mdt ← match List.lookup "06" f with
    | none => pure none
    | some s => some <$> pyEnumOf Meter.Formatting.MeteringDeviceType.fromCode s
  let auom ← match List.lookup "12" f with
    | none => pure none
    | some s => some <$> pyEnumOf Meter.Formatting.UnitofMeasure.fromCode s
  pure ⟨uom, mult, dvsr, List.lookup "03" f, List.lookup "04" f, mdt,
    List.lookup "07" f, List.lookup "08" f, auom⟩

/-- `Meter.HistoricalConsumption.__init__`, as the ordered list of attribute
assignments it performs.  The Python constructor assigns
`current_week_consumption_delivered` twice (first from key `"30"`, then from
key `"40"`) and never assigns `current_month_consumption_delivered`; keeping
the assignment list makes exactly that behaviour visible. -/
def Meter.HistoricalConsumption.initAssigns (payload : MeterDict) :
    Except PyErr (List (String × Option Nat)) := do
  let c ← pyIndex payload "0702"
  let hc := (List.lookup "04" c).getD []
  let a00 ← optHex hc "00"
  let a01 ← optHex hc "01"
  let a30 ← optHex hc "30"
  let a40 ← optHex hc "40"
  pure [("instantaneous_demand", a00),
    ("current_day_consumption_delivered", a01),
    ("current_week_consumption_delivered", a30),
    ("current_week_consumption_delivered", a40)]

/-- `Meter.AlternativeHistoricalConsumption.__init__`, as its ordered list of
attribute assignments; it reads sub-block `"0C"` and has the same week/month
assignment collision. -/
def Meter.AlternativeHistoricalConsumption.initAssigns (payload : MeterDict) :
    Except PyErr (List (String × Option Nat)) := do
  let c ← pyIndex payload "0702"
  let ahc := (List.lookup "0C" c).getD []
  let a01 ← optHex ahc "01"
  let a30 ← optHex ahc "30"
  let a40 ← optHex ahc "40"
  pure [("current_day_consumption_delivered", a01),
    ("current_week_consumption_delivered", a30),
    ("current_week_consumption_delivered", a40)]

/-- Information received regarding a single smart meter. -/
structure Meter where
  reading_information_set : Meter.ReadingInformationSet
  meter_status : Meter.MeterStatus
  formatting : Meter.Formatting
  historical_consumption : List (String × Option Nat)
  alternative_historical_consumption : List (String × Option Nat)
  meter : Option Nat
deriving DecidableEq

/-- `Meter.__init__`: builds the five sub-records and then evaluates
`int(payload["0702"]["00"]["00"], 16) if "00" in payload["0702"]["00"] else
None`.  The condition itself indexes `payload["0702"]["00"]` without a
guard, so a payload whose `"0702"` cluster lacks the `"00"` sub-block raises
`KeyError` here. -/
def Meter.init (payload : MeterDict) : Except PyErr Meter := do
  let ris ← Meter.ReadingInformationSet.init payload
  let ms ← Meter.MeterStatus.init payload
  let fmt ← Meter.Formatting.init payload
  let hc ← Meter.HistoricalConsumption.initAssigns payload
  let ahc ← Meter.AlternativeHistoricalConsumption.initAssigns payload
  let c ← pyIndex payload "0702"
  let cl00 ← pyIndex c "00"
  let m ← optHex cl00 "00"
  pure ⟨ris, ms, fmt, hc, ahc, m⟩

/-- Object representing a payload received over MQTT. -/
structure MQTTPayload where
  electricity : Option Meter
  gas : Option Meter
deriving DecidableEq

/-- `MQTTPayload.__init__` on the already-JSON-decoded dictionary: each of
the two meter sections is decoded only when its `"0702"` cluster holds the
formatting sub-block key `"03"`; otherwise the field is `None`. -/
def MQTTPayload.init (payload : TopPayload) : Except PyErr MQTTPayload := do
  let elec ← pyIndex payload "elecMtr"
  let e0702 ← pyIndex elec "0702"
  let e ← if (List.lookup "03" e0702).isSome
    then some <$> Meter.init elec
    else pure none
  let gasm ← pyIndex payload "gasMtr"
  let g0702 ← pyIndex gasm "0702"
  let g ← if (List.lookup "03" g0702).isSome
    then some <$> Meter.init gasm
    else pure none
  pure ⟨e, g⟩

/-! ## The Glowmarkt API client (`hildebrandglow_dcc/glow.py`) -/

/-- Failure conditions an API-client call can surface: the repository's
`CannotConnect` and `InvalidAuth` exceptions, plus a Python `KeyError`
escaping from an unguarded dictionary access. -/
inductive GlowError where
  | cannotConnect
  | invalidAuth
  | pyKeyError
deriving DecidableEq

/-- Body of the `POST /auth` response: `{"valid": bool, "token": str,
"exp": int}`. -/
structure AuthData where
  valid : Bool
  token : String
  exp : Nat
deriving DecidableEq

/-- Outcome of the HTTP POST inside `Glow.authenticate`: either
`requests.Timeout` or a response whose body parses to an `AuthData`. -/
inductive AuthHttp where
  | timeout
  | resp (data : AuthData)
deriving DecidableEq

/-- `Glow.authenticate`: a timeout raises `CannotConnect`; a response with
`valid` false raises `InvalidAuth`; otherwise the decoded body is returned
as the credential. -/
def Glow.authenticate (r : AuthHttp) : Except GlowError AuthData :=
  match r with
  | .timeout => Except.error GlowError.cannotConnect
  | .resp data => cond data.valid (Except.ok data) (Except.error GlowError.invalidAuth)

/-- A JSON object body, reduced to the string-valued fields the client
inspects. -/
abbrev JsonBody := List (String × String)

/-- Outcome of one `requests` call inside `Glow._current_data`:
`requests.Timeout`, another `requests.RequestException`, or a response with
a status code and a JSON body. -/
inductive ReqOutcome where
  | timeout
  | reqError
  | resp (status : Nat) (body : JsonBody)
deriving DecidableEq

/-- Status/body dispatch of `Glow._current_data` once the main readings
response is in hand.  A non-200 response is first tested on its body's
`"error"` field (an unguarded `response.json()["error"]` access), returning
`None` on the benign future-window message; only then are 401 and 404 turned
into `InvalidAuth`; any other non-200 status returns `None`; a 200 response
returns its body. -/
def Glow.currentDataResponse (r : ReqOutcome) : Except GlowError (Option JsonBody) :=
  match r with
  | .timeout => Except.ok none
  | .reqError => Except.ok none
  | .resp status body =>
    if status ≠ 200 then
      match List.lookup "error" body with
      | none => Except.error GlowError.pyKeyError
      | some msg =>
        if msg = "incorrect elements -from in the future" then Except.ok none
        else if status = 401 then Except.error GlowError.invalidAuth
        else if status = 404 then Except.error GlowError.invalidAuth
        else Except.ok none
    else Except.ok (some body)

/-- `Glow._current_data`: when `catchup` is set the catch-up request runs
first inside the same `try`, so its `Timeout`/`RequestException` returns
`None` before the readings request is ever made; the catch-up response's
status is otherwise ignored. -/
def Glow.currentData (catchup : Bool) (catchupRes mainRes : ReqOutcome) :
    Except GlowError (Option JsonBody) :=
  if catchup then
    match catchupRes with
    | .timeout => Except.ok none
    | .reqError => Except.ok none
    | .resp _ _ => Glow.currentDataResponse mainRes
  else Glow.currentDataResponse mainRes

/-- The class-level state of `Glow`: `update_token` writes `cls.token`, a
single slot shared by every instance. -/
structure GlowClass where
  token : String
deriving DecidableEq

/-- The per-instance state of `Glow`: only `app_id` (and the HTTP session)
live on the instance; the bearer token does not. -/
structure GlowInstance where
  app_id : String
deriving DecidableEq

/-- `Glow.update_token`: sets the token in the class, so it is available to
all instances. -/
def Glow.update_token (_cls : GlowClass) (value : String) : GlowClass :=
  { token := value }

/-- `Glow.__init__`: stores `app_id` on the instance and routes the token
through the classmethod `update_token`, mutating the class state. -/
def Glow.init (cls : GlowClass) (app_id token : String) : GlowInstance × GlowClass :=
  (⟨app_id⟩, Glow.update_token cls token)

/-- Headers sent by `Glow.retrieve_resources` (and by `_current_data`):
`applicationId` from the instance, `token` from the class state. -/
def Glow.requestHeaders (cls : GlowClass) (self : GlowInstance) :
    List (String × String) :=
  [("applicationId", self.app_id), ("token", cls.token)]

/-! ## The polling scheduler (`hildebrandglow_dcc/sensor.py`) -/

/-- `should_update`: true when the minute of the hour is in 0–5 or 30–35. -/
def should_update (minute : Nat) : Bool :=
  decide ((0 ≤ minute ∧ minute ≤ 5) ∨ (30 ≤ minute ∧ minute ≤ 35))

/-- The state of a `Usage` sensor the scheduler acts on: the `initialised`
flag and the cached native value. -/
structure UsageState (V : Type) where
  initialised : Bool
  native_value : Option V
deriving DecidableEq

/-- `Usage.async_update`: on first call it fetches and initialises; once
initialised it fetches only inside the `should_update` window, otherwise it
leaves the state untouched.  `round2` stands for Python's `round(_, 2)`;
`fetched` is the value `daily_data` would return; the second component
counts the `daily_data` fetches the call performs. -/
def Usage.async_update {V : Type} (round2 : V → V) (st : UsageState V)
    (minute : Nat) (fetched : V) : UsageState V × Nat :=
  if st.initialised = false then (⟨true, some (round2 fetched)⟩, 1)
  else if should_update minute then (⟨st.initialised, some (round2 fetched)⟩, 1)
  else (st, 0)

/-- `Cost.async_update`: identical scheduling to `Usage.async_update`, but
the fetched value is divided by 100 before rounding.  The fetch it counts is
the `daily_data(self)` call the `Cost` sensor itself performs on its own
cost resource — it does not read the referenced meter sensor's state. -/
def Cost.async_update {V : Type} [Div V] (round2 : V → V) (hundred : V)
    (st : UsageState V) (minute : Nat) (fetched : V) : UsageState V × Nat :=
  if st.initialised = false then (⟨true, some (round2 (fetched / hundred))⟩, 1)
  else if should_update minute then
    (⟨st.initialised, some (round2 (fetched / hundred))⟩, 1)
  else (st, 0)

/-- The tariff object the coordinator hands to its sensors, reduced to the
two current rates the sensors read. -/
structure TariffData (V : Type) where
  standing_charge : V
  rate : V
deriving DecidableEq

/-- Initialisation flags of `TariffCoordinator`. -/
structure TariffCoordinatorState where
  rate_initialised : Bool
  standing_initialised : Bool
deriving DecidableEq

/-- `TariffCoordinator._async_update_data`: the first two refreshes fetch
unconditionally (one per dependent sensor's initialisation); after that a
fetch happens only inside the `should_update` window, and outside it the
coordinator data for the cycle is `None`.  The last component counts tariff
fetches. -/
def TariffCoordinator.update {V : Type} (st : TariffCoordinatorState)
    (minute : Nat) (tariff : Option (TariffData V)) :
    TariffCoordinatorState × Option (TariffData V) × Nat :=
  if st.standing_initialised = false then
    if st.rate_initialised = false then
      ({ st with rate_initialised := true }, tariff, 1)
    else
      ({ st with standing_initialised := true }, tariff, 1)
  else if should_update minute then (st, tariff, 1)
  else (st, none, 0)

/-- `Standing._handle_coordinator_update`: a pure transformation of the
coordinator's data — when data is present the new value is the standing
charge divided by 100 and rounded to 4 places; when absent the previous
value is kept.  It performs no fetch of its own. -/
def Standing.handle_coordinator_update {V : Type} [Div V] (round4 : V → V)
    (hundred : V) (data : Option (TariffData V)) (prev : Option V) : Option V :=
  match data with
  | some d => some (round4 (d.standing_charge / hundred))
  | none => prev

/-- `Rate._handle_coordinator_update`: the same pure transformation applied
to the rate field. -/
def Rate.handle_coordinator_update {V : Type} [Div V] (round4 : V → V)
    (hundred : V) (data : Option (TariffData V)) (prev : Option V) : Option V :=
  match data with
  | some d => some (round4 (d.rate / hundred))
  | none => prev

/-! ## The auth/retry control flow of `daily_data` (`sensor.py`)

`daily_data` makes a catch-up request and then a readings request, each in
its own `try` block.  In each block a generic exception whose message holds
"Request failed" (the library's non-200 signal, covering HTTP 401/404)
triggers `refresh_token` and then one retry of the same request, whose own
failures are only logged; `refresh_token` raises `ConfigEntryNotReady` when
the re-authentication fails, which propagates and aborts the cycle.  The
model records each call's outcome as an oracle and counts re-authentication
attempts (each attempt is one `BrightClient` construction, i.e. one call of
the authenticate endpoint). -/

/-- Outcome of one API call made by `daily_data`. -/
inductive ApiResult where
  | ok
  | timeout
  | connError
  | requestFailed
  | otherError
deriving DecidableEq

/-- Outcome of constructing `BrightClient` inside `refresh_token`. -/
inductive RefreshResult where
  | ok
  | timeout
  | connError
  | otherError
deriving DecidableEq

/-- Errors that abort a `daily_data` cycle: `ConfigEntryNotReady` raised by
a failed `refresh_token`, or the `UnboundLocalError` raised at the final
`return readings[0][1].value` when no readings call succeeded. -/
inductive CycleError where
  | configEntryNotReady
  | unboundLocal
deriving DecidableEq

/-- `refresh_token`: any failure constructing `BrightClient` raises
`ConfigEntryNotReady`. -/
def refresh_token (r : RefreshResult) : Except CycleError Unit :=
  match r with
  | .ok => Except.ok ()
  | _ => Except.error CycleError.configEntryNotReady

/-- The oracle for one `daily_data` cycle: outcomes of the first catch-up
call, the re-authentication attempted if it reports a non-200 failure, the
retried catch-up, and the same triple for the readings call. -/
structure CycleEnv where
  catchup1 : ApiResult
  refreshAfterCatchup : RefreshResult
  catchup2 : ApiResult
  readings1 : ApiResult
  refreshAfterReadings : RefreshResult
  readings2 : ApiResult
deriving DecidableEq

/-- The readings half of `daily_data`, carrying the count `k` of
re-authentication attempts already made in the catch-up half.  A timeout,
connection error or unexpected exception is only logged, after which the
final statement reads the unbound `readings` local and raises; a
"Request failed" exception refreshes the token once and retries once. -/
def daily_data_readings (env : CycleEnv) (k : Nat) : Except CycleError Unit × Nat :=
  match env.readings1 with
  | .ok => (Except.ok (), k)
  | .requestFailed =>
    match refresh_token env.refreshAfterReadings with
    | .error e => (Except.error e, k + 1)
    | .ok _ =>
      match env.readings2 with
      | .ok => (Except.ok (), k + 1)
      | _ => (Except.error CycleError.unboundLocal, k + 1)
  | _ => (Except.error CycleError.unboundLocal, k)

/-- `daily_data`: the catch-up half followed by the readings half.  Every
failure of the first catch-up call except "Request failed" is only logged;
"Request failed" triggers one `refresh_token` (whose failure propagates and
ends the cycle) and one retried catch-up whose outcome is only logged.  The
second component counts the re-authentication attempts of the cycle. -/
def daily_data (env : CycleEnv) : Except CycleError Unit × Nat :=
  match env.catchup1 with
  | .requestFailed =>
    match refresh_token env.refreshAfterCatchup with
    | .error e => (Except.error e, 1)
    | .ok _ => daily_data_readings env 1
  | _ => daily_data_readings env 0

/-- A cycle oracle in which only the readings call fails with the non-200
"Request failed" signal and the re-authentication and retry both succeed:
the situation of a caller holding an expired token. -/
def authFailingCall : CycleEnv :=
  ⟨ApiResult.ok, RefreshResult.ok, ApiResult.ok,
   ApiResult.requestFailed, RefreshResult.ok, ApiResult.ok⟩

/-- Total number of authenticate-endpoint invocations when each of several
sensors sharing the one stored credential runs its `daily_data` in the same
poll cycle: the code has no shared-refresh dedup, so the attempts simply
add up. -/
def cycle_refresh_attempts (envs : List CycleEnv) : Nat :=
  (envs.map (fun e => (daily_data e).2)).sum

/-! ## Simplification helpers for `Except` computations -/

/-- Bind on a successful `Except` computation. -/
@[simp] theorem exceptOkBind {ε α β : Type} (a : α) (f : α → Except ε β) :
    (Except.ok a >>= f : Except ε β) = f a := rfl

/-- Bind on a failed `Except` computation. -/
@[simp] theorem exceptErrorBind {ε α β : Type} (e : ε) (f : α → Except ε β) :
    ((Except.error e : Except ε α) >>= f) = Except.error e := rfl

/-- Map over a successful `Except` computation. -/
@[simp] theorem exceptMapOk {ε α β : Type} (f : α → β) (a : α) :
    (f <$> (Except.ok a : Except ε α)) = Except.ok (f a) := rfl

/-- Map over a failed `Except` computation. -/
@[simp] theorem exceptMapError {ε α β : Type} (f : α → β) (e : ε) :
    (f <$> (Except.error e : Except ε α)) = Except.error e := rfl

/-- Pure of the `Except` monad. -/
@[simp] theorem exceptPure {ε α : Type} (a : α) :
    (pure a : Except ε α) = Except.ok a := rfl

/-- A successful bind factors into a successful first computation and a
successful continuation. -/
theorem except_bind_ok {ε α β : Type} {m : Except ε α} {f : α → Except ε β} {b : β}
    (h : (m >>= f) = Except.ok b) : ∃ a, m = Except.ok a ∧ f a = Except.ok b := by
  cases m with
  | error e => simp at h
  | ok a => exact ⟨a, rfl, by simpa using h⟩

/-! ## Claims about the payload decoder -/

/-- Claim C1, counterexample.  The claim says the decoder yields an absent
value for any missing two-character hex key and never raises, so that
decoding succeeds for payloads whose nested cluster maps omit arbitrary
keys.  It is false: `Meter.__init__` evaluates `payload["0702"]["00"]`
inside the guard of its final field, so a meter payload whose `"0702"`
cluster holds the formatting sub-block `"03"` (hence is decoded at all) but
omits the `"00"` sub-block raises `KeyError` instead of producing absent
fields. -/
theorem C1_counterexample :
    Meter.init [("0702", [("03", [])])] = Except.error PyErr.keyError := rfl

/-- Claim C1, amended.  For the guarded hex-integer fields of
`ReadingInformationSet` a missing key does yield `None` without raising:
when every attribute key is absent from the `"00"` sub-block the decode
succeeds with all four integer fields `None` — but the supply status
defaults to `OFF` rather than being absent, and (per the counterexample)
`Meter.__init__` still requires the `"00"` sub-block itself to be
present. -/
theorem C1_missing_keys_guarded (p : MeterDict) (c : ClusterMap) (ris : AttrMap)
    (h0702 : List.lookup "0702" p = some c)
    (hris : List.lookup "00" c = some ris)
    (h00 : List.lookup "00" ris = none) (h01 : List.lookup "01" ris = none)
    (h02 : List.lookup "02" ris = none) (h07 : List.lookup "07" ris = none)
    (h14 : List.lookup "14" ris = none) :
    Meter.ReadingInformationSet.init p =
      Except.ok ⟨none, none, none, none, Meter.ReadingInformationSet.SupplyStatus.OFF⟩ := by
  simp [Meter.ReadingInformationSet.init, pyIndex, h0702, hris, h00, h01, h02, h07, h14,
    optHex, pyEnumOf, Meter.ReadingInformationSet.SupplyStatus.fromCode]

/-- Witness for `C1_missing_keys_guarded` at a concrete payload whose
reading sub-block is present but empty. -/
theorem C1_missing_keys_guarded_witness :
    Meter.ReadingInformationSet.init [("0702", [("00", [])])] =
      Except.ok ⟨none, none, none, none, Meter.ReadingInformationSet.SupplyStatus.OFF⟩ :=
  C1_missing_keys_guarded [("0702", [("00", [])])] [("00", [])] []
    rfl rfl rfl rfl rfl rfl rfl

/-- Claim C2.  The claim says the decoded week field equals the integer
decoded from key `"30"` and the month field the integer decoded from
`"40"`, as distinct fields.  The code instead assigns
`current_week_consumption_delivered` twice — first from `"30"`, then from
`"40"` — so the week attribute ends up holding the month value, and
`current_month_consumption_delivered` is never assigned at all (reading it
raises `AttributeError`), contradicting the constructor's own field
declarations and docstrings.  Evaluated at the sub-block
`{"30": "05", "40": "07"}`: the week attribute is 7 (not 5) and the month
attribute is absent, in both `HistoricalConsumption` and
`AlternativeHistoricalConsumption`. -/
theorem C2_week_month_collision :
    (Meter.HistoricalConsumption.initAssigns
        [("0702", [("04", [("30", "05"), ("40", "07")])])]).map
      (fun a => (getattrOpt a "current_week_consumption_delivered",
        getattrOpt a "current_month_consumption_delivered"))
      = Except.ok (some (some 7), none)
    ∧ (Meter.AlternativeHistoricalConsumption.initAssigns
        [("0702", [("0C", [("30", "05"), ("40", "07")])])]).map
      (fun a => (getattrOpt a "current_week_consumption_delivered",
        getattrOpt a "current_month_consumption_delivered"))
      = Except.ok (some (some 7), none) :=
  ⟨rfl, rfl⟩

/-- Claim C8.  Decoding a payload whose `elecMtr."0702"` map lacks the
formatting key `"03"` yields no electricity `Meter` at all — the
`electricity` field of every successful decode is `None`, never a
zero-filled meter — and the same gate applies to `gasMtr` for the `gas`
field. -/
theorem C8_formatting_gate :
    (∀ (p : TopPayload) (e : MeterDict) (ce : ClusterMap),
      List.lookup "elecMtr" p = some e →
      List.lookup "0702" e = some ce →
      List.lookup "03" ce = none →
      ∀ r, MQTTPayload.init p = Except.ok r → r.electricity = none)
    ∧ (∀ (p : TopPayload) (g : MeterDict) (cg : ClusterMap),
      List.lookup "gasMtr" p = some g →
      List.lookup "0702" g = some cg →
      List.lookup "03" cg = none →
      ∀ r, MQTTPayload.init p = Except.ok r → r.gas = none) := by
  constructor
  · intro p e ce he hce h03 r h
    simp [MQTTPayload.init, pyIndex, he, hce, h03] at h
    obtain ⟨gasm, hgm, h⟩ := except_bind_ok h
    obtain ⟨g0702, h72, h⟩ := except_bind_ok h
    split at h
    · obtain ⟨m, hm, h⟩ := except_bind_ok h
      replace h : Except.ok (MQTTPayload.mk none (some m)) = Except.ok r := h
      cases h
      rfl
    · replace h : Except.ok (MQTTPayload.mk none none) = Except.ok r := h
      cases h
      rfl
  · intro p g cg hg hcg h03 r h
    simp only [MQTTPayload.init] at h
    obtain ⟨elec, hem, h⟩ := except_bind_ok h
    obtain ⟨e0702, h72, h⟩ := except_bind_ok h
    split at h
    all_goals
      obtain ⟨y, hy, h⟩ := except_bind_ok h
      obtain ⟨gasm, hgm, h⟩ := except_bind_ok h
      simp [pyIndex, hg] at hgm
      subst hgm
      obtain ⟨g0702c, hg2, h⟩ := except_bind_ok h
      simp [pyIndex, hcg] at hg2
      subst hg2
      simp [h03] at h
      subst h
      rfl

/-- Witness for `C8_formatting_gate` at a concrete payload in which both
meter sections lack the `"03"` formatting sub-block. -/
theorem C8_formatting_gate_witness :
    (MQTTPayload.mk none none).electricity = none
    ∧ (MQTTPayload.mk none none).gas = none :=
  ⟨C8_formatting_gate.1 [("elecMtr", [("0702", [])]), ("gasMtr", [("0702", [])])]
      [("0702", [])] [] rfl rfl rfl ⟨none, none⟩ rfl,
   C8_formatting_gate.2 [("elecMtr", [("0702", [])]), ("gasMtr", [("0702", [])])]
      [("0702", [])] [] rfl rfl rfl ⟨none, none⟩ rfl⟩

/-! ## Claims about the API client -/

/-- Claim C3.  A usage query (`_current_data` with the catch-up flag, as
used by `current_usage`) whose main response is non-200 with body error
`"incorrect elements -from in the future"` returns the benign empty result
`None` — it does not raise, and the outcome is a different constructor from
both `InvalidAuth` and `CannotConnect`. -/
theorem C3_future_window_benign (cs : Nat) (cb body : JsonBody) (s : Nat)
    (hs : s ≠ 200)
    (herr : List.lookup "error" body
      = some "incorrect elements -from in the future") :
    Glow.currentData true (ReqOutcome.resp cs cb) (ReqOutcome.resp s body)
      = Except.ok none
    ∧ Glow.currentData true (ReqOutcome.resp cs cb) (ReqOutcome.resp s body)
      ≠ Except.error GlowError.invalidAuth
    ∧ Glow.currentData true (ReqOutcome.resp cs cb) (ReqOutcome.resp s body)
      ≠ Except.error GlowError.cannotConnect := by
  have h : Glow.currentData true (ReqOutcome.resp cs cb) (ReqOutcome.resp s body)
      = Except.ok none := by
    simp [Glow.currentData, Glow.currentDataResponse, hs, herr]
  exact ⟨h, by simp [h], by simp [h]⟩

/-- Witness for `C3_future_window_benign` at a concrete 400 response whose
body carries the future-window error message, after a 200 catch-up. -/
theorem C3_future_window_benign_witness :
    Glow.currentData true (ReqOutcome.resp 200 [])
      (ReqOutcome.resp 400 [("error", "incorrect elements -from in the future")])
      = Except.ok none :=
  (C3_future_window_benign 200 [] [("error", "incorrect elements -from in the future")]
    400 (by decide) rfl).1

/-- Claim C4.  `Glow.authenticate`: every response with `valid` false raises
`InvalidAuth`; a timeout raises `CannotConnect`; every response with `valid`
true, token `T` returns a credential whose token equals `T`. -/
theorem C4_authenticate_taxonomy :
    (∀ (t : String) (e : Nat),
      Glow.authenticate (AuthHttp.resp ⟨false, t, e⟩)
        = Except.error GlowError.invalidAuth)
    ∧ Glow.authenticate AuthHttp.timeout = Except.error GlowError.cannotConnect
    ∧ (∀ (T : String) (E : Nat),
      ∃ d, Glow.authenticate (AuthHttp.resp ⟨true, T, E⟩) = Except.ok d
        ∧ d.token = T) :=
  ⟨fun _ _ => rfl, rfl, fun T E => ⟨⟨true, T, E⟩, rfl, rfl⟩⟩

/-- Claim C10.  The bearer token of the API client is class-level shared
state: constructing a second instance with token `t2` (which routes through
the classmethod `update_token`) changes the token that the first instance's
subsequent requests carry to `t2`, and any direct `update_token` call
likewise retargets every instance's requests — no instance holds an
independent token. -/
theorem C10_class_level_token :
    (∀ (cls : GlowClass) (a1 t1 a2 t2 : String),
      List.lookup "token"
        (Glow.requestHeaders (Glow.init (Glow.init cls a1 t1).2 a2 t2).2
          (Glow.init cls a1 t1).1) = some t2)
    ∧ (∀ (cls : GlowClass) (T : String) (g : GlowInstance),
      List.lookup "token" (Glow.requestHeaders (Glow.update_token cls T) g)
        = some T) := by
  constructor
  · intro cls a1 t1 a2 t2
    simp +decide [Glow.requestHeaders, Glow.init, Glow.update_token, List.lookup]
  · intro cls T g
    simp +decide [Glow.requestHeaders, Glow.update_token, List.lookup]

/-! ## Claims about the polling scheduler -/

/-- Claim C6.  For an already-initialised `Usage` sensor: outside the
minute-of-hour window the update performs no fetch and returns the state
unchanged; inside the window it performs the fetch and caches the rounded
value; and minute 12 is outside the window while minute 3 is inside it. -/
theorem C6_window_gates_fetch {V : Type} (round2 : V → V) (st : UsageState V)
    (minute : Nat) (fetched : V) (hinit : st.initialised = true) :
    (should_update minute = false →
      Usage.async_update round2 st minute fetched = (st, 0))
    ∧ (should_update minute = true →
      Usage.async_update round2 st minute fetched
        = (⟨true, some (round2 fetched)⟩, 1))
    ∧ should_update 12 = false ∧ should_update 3 = true := by
  refine ⟨fun hw => ?_, fun hw => ?_, by decide, by decide⟩
  · simp [Usage.async_update, hinit, hw]
  · simp [Usage.async_update, hinit, hw]

/-- Witness for `C6_window_gates_fetch`: at minute 12 a cached reading of 7
is returned unchanged with no fetch; at minute 3 the fetch happens and the
new value is cached. -/
theorem C6_window_gates_fetch_witness :
    Usage.async_update (fun v : Nat => v) ⟨true, some 7⟩ 12 9 = (⟨true, some 7⟩, 0)
    ∧ Usage.async_update (fun v : Nat => v) ⟨true, some 7⟩ 3 9 = (⟨true, some 9⟩, 1) :=
  ⟨(C6_window_gates_fetch (fun v : Nat => v) ⟨true, some 7⟩ 12 9 rfl).1 (by decide),
   (C6_window_gates_fetch (fun v : Nat => v) ⟨true, some 7⟩ 3 9 rfl).2.1 (by decide)⟩

/-- Claim C7, counterexample.  The claim says derived sensors never issue
their own upstream fetch and only transform the base sensor's already
fetched state.  `Cost.async_update` refutes it: inside the update window an
initialised cost sensor performs one `daily_data` fetch of its own cost
resource (fetch count 1, not 0) and computes its value from that fetch, not
from the referenced meter sensor's cached state. -/
theorem C7_counterexample :
    Cost.async_update (fun v : Nat => v) 100 ⟨true, some 1⟩ 3 500
      = (⟨true, some 5⟩, 1) := rfl

/-- Claim C7, amended.  The tariff-derived sensors do follow the claim: one
`TariffCoordinator` refresh performs a single tariff fetch serving both the
`Standing` and `Rate` sensors, whose handlers are pure transformations
(divide by 100, round) of the coordinator's data.  The `Cost` sensor,
however, performs one upstream fetch of its own on every scheduled update
rather than reading the meter sensor's cached state. -/
theorem C7_derived_sensors {V : Type} [Div V] (round2 round4 : V → V)
    (hundred : V) (st : UsageState V) (minute : Nat) (fetched : V)
    (hinit : st.initialised = true) (hw : should_update minute = true) :
    (Cost.async_update round2 hundred st minute fetched).2 = 1
    ∧ (∀ (cst : TariffCoordinatorState) (tariff : Option (TariffData V)),
      cst.standing_initialised = true →
      (TariffCoordinator.update cst minute tariff).2.2 = 1)
    ∧ (∀ (d : TariffData V) (prev : Option V),
      Standing.handle_coordinator_update round4 hundred (some d) prev
        = some (round4 (d.standing_charge / hundred))
      ∧ Rate.handle_coordinator_update round4 hundred (some d) prev
        = some (round4 (d.rate / hundred))) := by
  refine ⟨?_, ?_, fun d prev => ⟨rfl, rfl⟩⟩
  · simp [Cost.async_update, hinit, hw]
  · intro cst tariff hcst
    simp [TariffCoordinator.update, hcst, hw]

/-- Witness for `C7_derived_sensors` at minute 3 with concrete natural
values. -/
theorem C7_derived_sensors_witness :
    (Cost.async_update (fun v : Nat => v) 100 ⟨true, some 1⟩ 3 500).2 = 1
    ∧ Standing.handle_coordinator_update (fun v : Nat => v) 100
        (some ⟨2000, 3000⟩) none = some 20 :=
  ⟨(C7_derived_sensors (fun v : Nat => v) (fun v : Nat => v) 100 ⟨true, some 1⟩ 3 500
      rfl (by decide)).1,
   ((C7_derived_sensors (fun v : Nat => v) (fun v : Nat => v) 100 ⟨true, some 1⟩ 3 500
      rfl (by decide)).2.2 ⟨2000, 3000⟩ none).1⟩

/-! ## Claims about the auth/retry control flow -/

/-- Claim C5, counterexample.  The claim says the re-auth loop never runs
more than once per poll cycle.  In `daily_data` the catch-up block and the
readings block each own a re-authentication, so a cycle in which both the
catch-up and the readings call report the non-200 "Request failed" signal
performs two re-authentication attempts. -/
theorem C5_counterexample :
    (daily_data ⟨ApiResult.requestFailed, RefreshResult.ok, ApiResult.ok,
      ApiResult.requestFailed, RefreshResult.ok, ApiResult.ok⟩).2 = 2 := rfl

set_option maxHeartbeats 4000000 in
/-- Claim C5, amended.  Each failing API request of a cycle triggers at most
one re-authentication attempt — hence at most two per `daily_data` cycle,
with two occurring only when both the catch-up and the readings calls fail
with the non-200 signal — and a failed re-authentication raises
`ConfigEntryNotReady`, hard-failing the cycle with no further retry: the
cycle ends with exactly that one attempt made in its failing block. -/
theorem C5_reauth_bounded (env : CycleEnv) :
    (daily_data env).2 ≤ 2
    ∧ ((daily_data env).2 = 2 → env.catchup1 = ApiResult.requestFailed
        ∧ env.readings1 = ApiResult.requestFailed)
    ∧ (env.catchup1 = ApiResult.requestFailed →
        ∀ e, refresh_token env.refreshAfterCatchup = Except.error e →
        daily_data env = (Except.error e, 1))
    ∧ (env.catchup1 ≠ ApiResult.requestFailed →
        env.readings1 = ApiResult.requestFailed →
        ∀ e, refresh_token env.refreshAfterReadings = Except.error e →
        daily_data env = (Except.error e, 1)) := by
  obtain ⟨c1, rc, c2, r1, rr, r2⟩ := env
  cases c1 <;> cases rc <;> cases r1 <;> cases rr <;> cases r2 <;>
    simp [daily_data, daily_data_readings, refresh_token]

/-- Witness for `C5_reauth_bounded`: a cycle whose catch-up call fails with
the non-200 signal and whose re-authentication times out ends immediately
as `ConfigEntryNotReady` after exactly one re-auth attempt. -/
theorem C5_reauth_bounded_witness :
    daily_data ⟨ApiResult.requestFailed, RefreshResult.timeout, ApiResult.ok,
      ApiResult.ok, RefreshResult.ok, ApiResult.ok⟩
      = (Except.error CycleError.configEntryNotReady, 1) :=
  (C5_reauth_bounded ⟨ApiResult.requestFailed, RefreshResult.timeout, ApiResult.ok,
    ApiResult.ok, RefreshResult.ok, ApiResult.ok⟩).2.2.1 rfl
    CycleError.configEntryNotReady rfl

/-- Claim C9, counterexample.  The claim says a single shared refresh serves
all concurrent callers, so the authenticate endpoint is invoked exactly once
per cycle.  The code has no such dedup: two sensors sharing the one stored
credential that each observe the auth failure in the same poll cycle invoke
the authenticate endpoint twice. -/
theorem C9_counterexample :
    cycle_refresh_attempts [authFailingCall, authFailingCall] = 2 := rfl

/-- Claim C9, amended.  Each caller that observes the auth failure
independently runs `refresh_token`, so a cycle with `n` such callers invokes
the authenticate endpoint exactly `n` times — once per caller, not once per
cycle. -/
theorem C9_refresh_per_caller (n : Nat) :
    cycle_refresh_attempts (List.replicate n authFailingCall) = n := by
  induction n with
  | zero => rfl
  | succ k ih =>
    simp only [cycle_refresh_attempts, List.replicate_succ, List.map_cons,
      List.sum_cons] at ih ⊢
    rw [ih]
    have h1 : (daily_data authFailingCall).2 = 1 := rfl
    rw [h1]
    omega
